import Mathlib

/-!
Verification development for the `ack_6wd_controller` repository
(`src/src/ack_6wd_controller.cpp`, header
`src/include/ack_6wd_controller/ack_6wd_controller.hpp`).

The controller's `update()` tick is shallowly embedded here: machine
doubles are modelled by `ℝ` (with a four-valued `FpVal` extension where
NaN/infinity behaviour matters), ROS time stamps by `ℚ` seconds, and the
hardware command/state handles by explicit record fields.  The
`Odometry` object (whose implementation file `src/odometry.cpp` is not
part of the repository snapshot) is abstracted by an opaque state type
together with the two update functions the tick calls; the
`SpeedLimiter` (implementation file `src/speed_limiter.cpp`, also
absent) is modelled from the spec.
-/

namespace Ack6WD

/-- Wheel/geometry parameters, from `struct WheelParams` in the header
plus the two empirical factors declared in
`Ack6WDController::init` / `on_configure`
(`angular_velocity_compensation`, `steering_angle_correction`). -/
structure WheelParams where
  wheels_per_side : ℕ
  base : ℝ
  separation : ℝ
  radius : ℝ
  base_multiplier : ℝ
  separation_multiplier : ℝ
  left_radius_multiplier : ℝ
  right_radius_multiplier : ℝ
  angular_velocity_compensation : ℝ
  steering_angle_correction : ℝ

/-- The `wheel_base` value recomputed each tick (line 227 of the source):
`wheels.base_multiplier * wheels.base`. -/
noncomputable def wheel_base (w : WheelParams) : ℝ := w.base_multiplier * w.base

/-- The `wheel_separation` value (line 228): `wheels.separation_multiplier * wheels.separation`. -/
noncomputable def wheel_separation (w : WheelParams) : ℝ :=
  w.separation_multiplier * w.separation

/-- The `left_wheel_radius` value (line 229): `wheels.left_radius_multiplier * wheels.radius`. -/
noncomputable def left_wheel_radius (w : WheelParams) : ℝ :=
  w.left_radius_multiplier * w.radius

/-- The `right_wheel_radius` value (line 230): `wheels.right_radius_multiplier * wheels.radius`. -/
noncomputable def right_wheel_radius (w : WheelParams) : ℝ :=
  w.right_radius_multiplier * w.radius

/-- A stamped twist command (`geometry_msgs::msg::TwistStamped`
restricted to the two fields the controller reads:
`twist.linear.x`, `twist.angular.z`, and `header.stamp`,
the latter modelled as rational seconds). -/
structure TwistCmd where
  linear : ℝ
  angular : ℝ
  stamp : ℚ

/-- Lines 211-217 of `Ack6WDController::update`:
`dt = current_time - last_msg->header.stamp`; if `dt > cmd_vel_timeout_`
the twist of the *stored* message (`last_msg` is the shared pointer held
in `received_velocity_msg_ptr_`) is set to zero in place.  The source
comment reads "Brake if cmd_vel has timeout, override the stored
command". -/
def applyStaleOverride (stored : TwistCmd) (current_time cmd_vel_timeout : ℚ) : TwistCmd :=
  if current_time - stored.stamp > cmd_vel_timeout then
    { stored with linear := 0, angular := 0 }
  else stored

/-- The function `Ack6WDController::quadrant` (lines 813-832). -/
noncomputable def quadrant (linear angular : ℝ) : ℕ :=
  if 0 < linear then
    (if 0 ≤ angular then 0 else 1)
  else
    (if 0 < angular then 2 else 3)

/-- The direction matrix `int d[4][4]` (lines 415-420):
row 0 = `{1,1,1,1}`, row 1 = `{-1,-1,1,1}`, row 2 = `{-1,-1,-1,-1}`,
row 3 = `{1,1,-1,-1}`. -/
def d (q i : ℕ) : ℝ :=
  if q = 0 then 1
  else if q = 1 then (if i ≤ 1 then -1 else 1)
  else if q = 2 then -1
  else if i ≤ 1 then 1 else -1

/-- The six solver outputs computed at lines 428-434 (before the final
handle writes). -/
structure Setpoints where
  steering_angle_left : ℝ
  steering_angle_right : ℝ
  wheel_velocity_left : ℝ
  wheel_velocity_right : ℝ
  wheel_velocity_mid_left : ℝ
  wheel_velocity_mid_right : ℝ

/-- Lines 414-434: quadrant selection, direction matrix and
`steering_correction` applied to the branch-computed angles/velocities. -/
noncomputable def applyDirection (w : WheelParams) (linear_command angular_command
    angle_left angle_right velocity_left velocity_right
    velocity_mid_left velocity_mid_right : ℝ) : Setpoints :=
  let q := quadrant linear_command angular_command
  { steering_angle_left :=
      d q 0 * (if q = 0 ∨ q = 3 then angle_left else angle_right) * w.steering_angle_correction
    steering_angle_right :=
      d q 1 * (if q = 0 ∨ q = 3 then angle_right else angle_left) * w.steering_angle_correction
    wheel_velocity_left :=
      d q 2 * (if q = 0 ∨ q = 3 then velocity_left else velocity_right)
    wheel_velocity_right :=
      d q 3 * (if q = 0 ∨ q = 3 then velocity_right else velocity_left)
    wheel_velocity_mid_left :=
      d q 2 * (if q = 0 ∨ q = 3 then velocity_mid_left else velocity_mid_right)
    wheel_velocity_mid_right :=
      d q 3 * (if q = 0 ∨ q = 3 then velocity_mid_right else velocity_mid_left) }

/-- Line 393: `turning_radius = abs(linear_command / angular_command)` (line 393). -/
noncomputable def turning_radius (linear_command angular_command : ℝ) : ℝ :=
  |linear_command / angular_command|

/-- Line 396: `angle_left = M_PI/2 - atan((2*turning_radius - wheel_base) / wheel_separation)`
(line 396). -/
noncomputable def angle_left (w : WheelParams) (linear_command angular_command : ℝ) : ℝ :=
  Real.pi / 2 -
    Real.arctan ((2 * turning_radius linear_command angular_command - wheel_base w) /
      wheel_separation w)

/-- Line 397: `angle_right = M_PI/2 - atan((2*turning_radius + wheel_base) / wheel_separation)`
(line 397). -/
noncomputable def angle_right (w : WheelParams) (linear_command angular_command : ℝ) : ℝ :=
  Real.pi / 2 -
    Real.arctan ((2 * turning_radius linear_command angular_command + wheel_base w) /
      wheel_separation w)

/-- Line 400: `left_axis = abs(wheel_separation / (2 * sin(angle_left)))` (line 400). -/
noncomputable def left_axis (w : WheelParams) (linear_command angular_command : ℝ) : ℝ :=
  |wheel_separation w / (2 * Real.sin (angle_left w linear_command angular_command))|

/-- Line 401: `right_axis = abs(wheel_separation / (2 * sin(angle_right)))` (line 401). -/
noncomputable def right_axis (w : WheelParams) (linear_command angular_command : ℝ) : ℝ :=
  |wheel_separation w / (2 * Real.sin (angle_right w linear_command angular_command))|

/-- Line 404: `velocity_left = abs(angular_command * left_axis / left_wheel_radius) * ang_vel_comp`
(line 404). -/
noncomputable def velocity_left (w : WheelParams) (linear_command angular_command : ℝ) : ℝ :=
  |angular_command * left_axis w linear_command angular_command / left_wheel_radius w| *
    w.angular_velocity_compensation

/-- Line 405: `velocity_right`. -/
noncomputable def velocity_right (w : WheelParams) (linear_command angular_command : ℝ) : ℝ :=
  |angular_command * right_axis w linear_command angular_command / right_wheel_radius w| *
    w.angular_velocity_compensation

/-- Line 407: `velocity_mid_left = abs(angular_command * (turning_radius - wheel_base) / left_wheel_radius) * ang_vel_comp`
(line 407). -/
noncomputable def velocity_mid_left (w : WheelParams) (linear_command angular_command : ℝ) : ℝ :=
  |angular_command * (turning_radius linear_command angular_command - wheel_base w) /
      left_wheel_radius w| * w.angular_velocity_compensation

/-- Line 408: `velocity_mid_right`. -/
noncomputable def velocity_mid_right (w : WheelParams) (linear_command angular_command : ℝ) : ℝ :=
  |angular_command * (turning_radius linear_command angular_command + wheel_base w) /
      right_wheel_radius w| * w.angular_velocity_compensation

/-- The curved branch (lines 391-408 followed by 414-434). -/
noncomputable def solveCurved (w : WheelParams) (linear_command angular_command : ℝ) :
    Setpoints :=
  applyDirection w linear_command angular_command
    (angle_left w linear_command angular_command)
    (angle_right w linear_command angular_command)
    (velocity_left w linear_command angular_command)
    (velocity_right w linear_command angular_command)
    (velocity_mid_left w linear_command angular_command)
    (velocity_mid_right w linear_command angular_command)

/-- The three-way branch of lines 383-412: straight case
(`angular_command == 0`, with middle velocities aliased to the
front/rear ones and both angles zero), curved case
(`linear_command != 0`), and the "Turning radius is too short!"
error return (line 410-411), modelled as `none`. -/
noncomputable def solverCore (w : WheelParams) (linear_command angular_command : ℝ) :
    Option Setpoints :=
  if angular_command = 0 then
    some (applyDirection w linear_command angular_command 0 0
      (|linear_command / left_wheel_radius w|)
      (|linear_command / right_wheel_radius w|)
      (|linear_command / left_wheel_radius w|)
      (|linear_command / right_wheel_radius w|))
  else if linear_command ≠ 0 then
    some (solveCurved w linear_command angular_command)
  else
    none

/-- The factor `* 2 * 3.14 / 60` — the rpm-to-rad/s conversion applied to each wheel
velocity state value (lines 272-273, comment "to rad/s"). -/
noncomputable def rpm_to_rad_per_s (v : ℝ) : ℝ := v * 2 * 3.14 / 60

/-- The factor `* 60 / 6.283` — the rad/s-to-rpm conversion applied to each wheel
velocity command (lines 449-454, comment "to rpm"). -/
noncomputable def rad_per_s_to_rpm (v : ℝ) : ℝ := v * 60 / 6.283

/-- The ten values written to the hardware handles at lines 447-460:
wheel velocities converted to rpm; front steering gets
`(steering_angle_left, -steering_angle_right)` and rear steering the
negated/swapped pair. -/
structure HandleWrites where
  left_wheel_rpm : ℝ
  right_wheel_rpm : ℝ
  mid_left_rpm : ℝ
  mid_right_rpm : ℝ
  front_left_steering : ℝ
  front_right_steering : ℝ
  rear_left_steering : ℝ
  rear_right_steering : ℝ

/-- Lines 447-460 of the source. -/
noncomputable def writeHandles (s : Setpoints) : HandleWrites :=
  { left_wheel_rpm := rad_per_s_to_rpm s.wheel_velocity_left
    right_wheel_rpm := rad_per_s_to_rpm s.wheel_velocity_right
    mid_left_rpm := rad_per_s_to_rpm s.wheel_velocity_mid_left
    mid_right_rpm := rad_per_s_to_rpm s.wheel_velocity_mid_right
    front_left_steering := s.steering_angle_left
    front_right_steering := -s.steering_angle_right
    rear_left_steering := -s.steering_angle_left
    rear_right_steering := s.steering_angle_right }

/-! ### IEEE-style feedback scalars

The closed-loop branch (lines 265-315) reads hardware state values that
can be NaN or infinite.  `FpVal` extends `ℝ` with the three IEEE-754
special classes the source can encounter on that path, and the
operations below mirror the corresponding double operations on the
values the branch actually manipulates. -/

/-- A double read from a state interface: finite, `+inf`, `-inf`, or NaN. -/
inductive FpVal where
  | fin : ℝ → FpVal
  | posInf : FpVal
  | negInf : FpVal
  | nan : FpVal

namespace FpVal

/-- The test `std::isnan`. -/
def isnan : FpVal → Bool
  | nan => true
  | _ => false

/-- Multiplication by the positive constant `2 * 3.14 / 60` (lines 272-273);
infinities and NaN are preserved, as for IEEE doubles. -/
noncomputable def scaleRpm : FpVal → FpVal
  | fin x => fin (rpm_to_rad_per_s x)
  | posInf => posInf
  | negInf => negInf
  | nan => nan

/-- The function `std::abs` on doubles. -/
noncomputable def fabs : FpVal → FpVal
  | fin x => fin |x|
  | posInf => posInf
  | negInf => posInf
  | nan => nan

/-- Double addition (used by the `+=` accumulations at lines 295-299). -/
noncomputable def fadd : FpVal → FpVal → FpVal
  | fin x, fin y => fin (x + y)
  | fin _, posInf => posInf
  | fin _, negInf => negInf
  | posInf, fin _ => posInf
  | posInf, posInf => posInf
  | posInf, negInf => nan
  | negInf, fin _ => negInf
  | negInf, posInf => nan
  | negInf, negInf => negInf
  | _, _ => nan

/-- Division by the positive wheel count (lines 302-305); the loop and the
division share the same count, which equals the list length below. -/
noncomputable def fdivN : FpVal → ℕ → FpVal
  | fin x, n => fin (x / (n : ℝ))
  | posInf, _ => posInf
  | negInf, _ => negInf
  | nan, _ => nan

/-- Negation (the `* -1` of lines 307-308). -/
noncomputable def fneg : FpVal → FpVal
  | fin x => fin (-x)
  | posInf => negInf
  | negInf => posInf
  | nan => nan

/-- IEEE `<` on doubles (false whenever an operand is NaN). -/
noncomputable def flt : FpVal → FpVal → Bool
  | fin x, fin y => decide (x < y)
  | fin _, posInf => true
  | fin _, negInf => false
  | posInf, _ => false
  | negInf, fin _ => true
  | negInf, posInf => true
  | negInf, negInf => false
  | nan, _ => false
  | _, nan => false

/-- The call `std::min(a, b)`, which returns `b` exactly when `b < a`. -/
noncomputable def fmin (a b : FpVal) : FpVal := if flt b a then b else a

/-- The call `std::max(a, b)`, which returns `b` exactly when `a < b`. -/
noncomputable def fmax (a b : FpVal) : FpVal := if flt a b then b else a

/-- The test `linear > 0` as evaluated by `quadrant` on a double. -/
noncomputable def gt0 : FpVal → Bool
  | fin x => decide (0 < x)
  | posInf => true
  | _ => false

/-- The test `angular >= 0` as evaluated by `quadrant` on a double. -/
noncomputable def ge0 : FpVal → Bool
  | fin x => decide (0 ≤ x)
  | posInf => true
  | _ => false

end FpVal

/-- The function `Ack6WDController::quadrant` applied to the (possibly non-finite)
doubles of the feedback path (line 278). -/
noncomputable def quadrantF (linear angular : FpVal) : ℕ :=
  if linear.gt0 then
    (if angular.ge0 then 0 else 1)
  else
    (if angular.gt0 then 2 else 3)

/-- One iteration's worth of state reads (lines 272-275): the raw left and
right wheel velocity state values and the left and right steering angle
state values for one wheel index. -/
structure FpSample where
  left_velocity : FpVal
  right_velocity : FpVal
  left_angle : FpVal
  right_angle : FpVal

/-- The accumulation loop of lines 270-300: per index, convert the wheel
velocities with `* 2 * 3.14 / 60`, return an error (modelled `none`) if
any of the four values is NaN (lines 281-293), otherwise add the
absolute values into the four running sums (lines 295-299). -/
noncomputable def feedbackSumsAux :
    List FpSample → FpVal × FpVal × FpVal × FpVal → Option (FpVal × FpVal × FpVal × FpVal)
  | [], acc => some acc
  | s :: rest, (slv, srv, sla, sra) =>
    let left_velocity := s.left_velocity.scaleRpm
    let right_velocity := s.right_velocity.scaleRpm
    if left_velocity.isnan || right_velocity.isnan then none
    else if s.left_angle.isnan || s.right_angle.isnan then none
    else feedbackSumsAux rest
      (slv.fadd left_velocity.fabs, srv.fadd right_velocity.fabs,
       sla.fadd s.left_angle.fabs, sra.fadd s.right_angle.fabs)

/-- Lines 265-308: run the accumulation loop from zero sums, divide by the
wheel count, and reduce to the `(angle_encoder, velocity_encoder)` pair,
whose signs come from the quadrant of the index-0 left wheel velocity
and left steering angle (computed at lines 277-279 before the NaN
checks).  The pair is returned in the order `updateVel` consumes it at
line 315. -/
noncomputable def closedLoopReduce (fb : List FpSample) : Option (FpVal × FpVal) :=
  let q := match fb with
    | [] => 0
    | s :: _ => quadrantF s.left_velocity.scaleRpm s.left_angle
  match feedbackSumsAux fb (FpVal.fin 0, FpVal.fin 0, FpVal.fin 0, FpVal.fin 0) with
  | none => none
  | some (slv, srv, sla, sra) =>
    let n := fb.length
    let left_velocity_mean := slv.fdivN n
    let right_velocity_mean := srv.fdivN n
    let left_angle_mean := sla.fdivN n
    let right_angle_mean := sra.fdivN n
    let velocity_encoder :=
      if q = 0 ∨ q = 1 then FpVal.fmin left_velocity_mean.fabs right_velocity_mean.fabs
      else (FpVal.fmin left_velocity_mean.fabs right_velocity_mean.fabs).fneg
    let angle_encoder :=
      if q = 0 ∨ q = 2 then FpVal.fmax left_angle_mean.fabs right_angle_mean.fabs
      else (FpVal.fmax left_angle_mean.fabs right_angle_mean.fabs).fneg
    some (angle_encoder, velocity_encoder)

/-- Per-axis speed limiter configuration (declared in
`Ack6WDController::init`, lines 99-117). -/
structure SpeedLimiter where
  has_velocity_limits : Bool
  has_acceleration_limits : Bool
  has_jerk_limits : Bool
  min_velocity : ℝ
  max_velocity : ℝ
  min_acceleration : ℝ
  max_acceleration : ℝ
  min_jerk : ℝ
  max_jerk : ℝ

/-- Modelled from the spec: `SpeedLimiter::limit` — the implementation
file `src/speed_limiter.cpp` is not part of the repository snapshot.
Per spec section 4.1: clamp the value to the velocity bounds when
enabled, then clamp the discrete acceleration `(v - v0)/dt` and
recompute the value, then clamp the discrete jerk against the previous
acceleration `(v0 - v1)/dt` and recompute. -/
noncomputable def SpeedLimiter.limit (s : SpeedLimiter) (v v0 v1 dt : ℝ) : ℝ :=
  let v2 := if s.has_velocity_limits then max s.min_velocity (min s.max_velocity v) else v
  let v3 :=
    if s.has_acceleration_limits then
      v0 + max s.min_acceleration (min s.max_acceleration ((v2 - v0) / dt)) * dt
    else v2
  if s.has_jerk_limits then
    let acc := (v3 - v0) / dt
    let acc0 := (v0 - v1) / dt
    v0 + (acc0 + max s.min_jerk (min s.max_jerk ((acc - acc0) / dt)) * dt) * dt
  else v3

/-- Everything a successful tick leaves behind:
the content of `received_velocity_msg_ptr_` after the tick
(`new_stored`, mutated in place at lines 213-217), the odometry state
after the `updateOpenLoop`/`updateVel` call of lines 240-315, the
limited command of lines 363-366 (which is what reaches the kinematics
branch at line 383), and the ten handle writes of lines 447-460. -/
structure TickOutput (σ : Type) where
  new_stored : TwistCmd
  odom : σ
  limited_linear : ℝ
  limited_angular : ℝ
  writes : HandleWrites

/-- The tick `Ack6WDController::update` (lines 186-463) for an active, non-halted
controller with a non-null stored command.  The `Odometry` object
(implementation `src/odometry.cpp`, not in the snapshot) is abstracted
by the state type `σ` and the two functions `updateOpenLoop` (called
with the pre-limiter command, line 242) and `updateVel` (called with the
`(angle_encoder, velocity_encoder)` reduction, line 315).  `none`
models the `return_type::ERROR` returns at lines 237, 285, 292 and 411,
all of which precede every `set_value` handle write (lines 447-460);
publication (lines 322-356) has no effect on the modelled state.  The
feedback list `fb` carries one sample per wheel index, so its length
plays the role of `wheels.wheels_per_side`. -/
noncomputable def update {σ : Type}
    (open_loop : Bool)
    (updateOpenLoop : σ → ℝ → ℝ → σ)
    (updateVel : σ → FpVal → FpVal → σ)
    (w : WheelParams)
    (limiter_linear limiter_angular : SpeedLimiter)
    (stored : TwistCmd) (current_time cmd_vel_timeout : ℚ)
    (odom : σ) (fb : List FpSample)
    (last_linear last_angular second_last_linear second_last_angular update_dt : ℝ) :
    Option (TickOutput σ) :=
  let m := applyStaleOverride stored current_time cmd_vel_timeout
  if m.angular ≠ 0 ∧ m.linear = 0 then none
  else
    (if open_loop then some (updateOpenLoop odom m.linear m.angular)
      else (closedLoopReduce fb).map (fun p => updateVel odom p.1 p.2)).bind
      (fun odom2 =>
        let linear_command := limiter_linear.limit m.linear last_linear second_last_linear update_dt
        let angular_command :=
          limiter_angular.limit m.angular last_angular second_last_angular update_dt
        (solverCore w linear_command angular_command).map (fun sp =>
          { new_stored := m
            odom := odom2
            limited_linear := linear_command
            limited_angular := angular_command
            writes := writeHandles sp }))

/-- A fully finite feedback sample (one wheel index's four state reads,
all finite doubles). -/
structure RealSample where
  left_velocity : ℝ
  right_velocity : ℝ
  left_angle : ℝ
  right_angle : ℝ

/-- Inject a finite sample into the IEEE-valued sample type. -/
def finSample (s : RealSample) : FpSample :=
  ⟨FpVal.fin s.left_velocity, FpVal.fin s.right_velocity,
   FpVal.fin s.left_angle, FpVal.fin s.right_angle⟩

/-! ### Concrete configurations used by witnesses and counterexamples -/

/-- Unit geometry: one wheel per side, all lengths, radii, multipliers and
empirical factors equal to `1`. -/
def w0 : WheelParams := ⟨1, 1, 1, 1, 1, 1, 1, 1, 1, 1⟩

/-- Degenerate geometry whose wheel separation is zero (all other
parameters as in `w0`). -/
def wZeroSep : WheelParams := ⟨1, 1, 0, 1, 1, 1, 1, 1, 1, 1⟩

/-- A limiter with every limit disabled. -/
def lim0 : SpeedLimiter := ⟨false, false, false, 0, 0, 0, 0, 0, 0⟩

/-- A limiter clamping the velocity to `[-1, 1]`. -/
def limClamp : SpeedLimiter := ⟨true, false, false, -1, 1, 0, 0, 0, 0⟩

/-! ### C9 -/

/-- C9: the claim says both unit conversions at the hardware boundary use
exactly `2π`; in the source the rpm-to-rad/s factor is the literal
`2 * 3.14 / 60` (lines 272-273) and the rad/s-to-rpm factor the literal
`60 / 6.283` (lines 449-454), neither of which equals its exact-`π`
counterpart.  This closed counterexample shows both inequalities and
that the two factors are not reciprocal. -/
theorem C9_counterexample :
    rpm_to_rad_per_s 1 ≠ 1 * (2 * Real.pi) / 60 ∧
    rad_per_s_to_rpm 1 ≠ 1 * 60 / (2 * Real.pi) ∧
    rpm_to_rad_per_s (rad_per_s_to_rpm 1) ≠ 1 := by
  have hpi : (3.141592 : ℝ) < Real.pi := Real.pi_gt_3141592
  refine ⟨?_, ?_, ?_⟩
  · unfold rpm_to_rad_per_s
    intro h
    rw [div_eq_div_iff (by norm_num) (by norm_num)] at h
    nlinarith
  · unfold rad_per_s_to_rpm
    intro h
    rw [div_eq_div_iff (by norm_num) (by positivity)] at h
    nlinarith
  · unfold rpm_to_rad_per_s rad_per_s_to_rpm
    norm_num

/-- C9 (amended): the boundary conversions are fixed literal scalings —
each measured wheel speed is multiplied by `2 * 3.14 / 60 = 6.28 / 60`
and each commanded wheel speed by `60 / 6.283`; the round trip scales by
`6280 / 6283`, so the factors are close to, but not exactly, `2π/60` and
`60/(2π)`, and are not exact reciprocals. -/
theorem C9_conversion_factors (v : ℝ) :
    rpm_to_rad_per_s v = v * (6.28 / 60) ∧
    rad_per_s_to_rpm v = v * (60 / 6.283) ∧
    rpm_to_rad_per_s (rad_per_s_to_rpm v) = v * (6280 / 6283) := by
  refine ⟨?_, ?_, ?_⟩
  · unfold rpm_to_rad_per_s
    ring_nf
  · unfold rad_per_s_to_rpm
    ring_nf
  · unfold rpm_to_rad_per_s rad_per_s_to_rpm
    ring_nf

/-! ### C8 -/

/-- C8: the claim says every division in the kinematics solver is guarded
against zero divisors.  No guard exists in the source: with a wheel
separation of zero the curved branch is still taken (lines 391-408
produce a setpoint, so `solverCore` is not `none`) while the divisor of
`(2*turning_radius - wheel_base) / wheel_separation` at line 396 equals
zero. -/
theorem C8_counterexample :
    solverCore wZeroSep 1 1 ≠ none ∧ wheel_separation wZeroSep = 0 := by
  constructor
  · unfold solverCore
    norm_num
    simp
  · unfold wheel_separation wZeroSep
    norm_num

/-- C8 (amended): the divisions are unguarded, but under the documented
geometry invariant (positive wheel separation and wheel radii) and in
the curved case (`angular ≠ 0`) every divisor the solver uses is
provably nonzero — in particular both steering angles lie strictly
between `0` and `π`, so their sines are strictly positive. -/
theorem C8_divisors_nonzero (w : WheelParams) (l a : ℝ)
    (hS : 0 < wheel_separation w) (hL : 0 < left_wheel_radius w)
    (hR : 0 < right_wheel_radius w) (ha : a ≠ 0) :
    wheel_separation w ≠ 0 ∧
    0 < Real.sin (angle_left w l a) ∧
    0 < Real.sin (angle_right w l a) ∧
    left_wheel_radius w ≠ 0 ∧ right_wheel_radius w ≠ 0 ∧ a ≠ 0 := by
  have hpi := Real.pi_pos
  refine ⟨ne_of_gt hS, ?_, ?_, ne_of_gt hL, ne_of_gt hR, ha⟩
  · unfold angle_left
    have h1 := Real.arctan_lt_pi_div_two
      ((2 * turning_radius l a - wheel_base w) / wheel_separation w)
    have h2 := Real.neg_pi_div_two_lt_arctan
      ((2 * turning_radius l a - wheel_base w) / wheel_separation w)
    exact Real.sin_pos_of_pos_of_lt_pi (by linarith) (by linarith)
  · unfold angle_right
    have h1 := Real.arctan_lt_pi_div_two
      ((2 * turning_radius l a + wheel_base w) / wheel_separation w)
    have h2 := Real.neg_pi_div_two_lt_arctan
      ((2 * turning_radius l a + wheel_base w) / wheel_separation w)
    exact Real.sin_pos_of_pos_of_lt_pi (by linarith) (by linarith)

/-- C8 witness: the amended statement at the unit geometry and the
command `(linear, angular) = (1, 1)`. -/
theorem C8_witness :
    (0 : ℝ) < wheel_separation w0 ∧ (1 : ℝ) ≠ 0 ∧ 0 < Real.sin (angle_left w0 1 1) :=
  ⟨by norm_num [wheel_separation, w0], by norm_num,
    (C8_divisors_nonzero w0 1 1 (by norm_num [wheel_separation, w0])
      (by norm_num [left_wheel_radius, w0]) (by norm_num [right_wheel_radius, w0])
      (by norm_num)).2.1⟩

/-! ### C5 -/

/-- C5: in the curved case (`angular ≠ 0`, `linear ≠ 0`) the solver takes
the branch of lines 391-408, and its pre-sign quantities equal the
claimed formulas: steering angles `π/2 - atan((2R ∓ B)/S)` with
`R = |linear/angular|`, steered-axle speeds
`|angular * (S / (2 sin angle)) / radius| *` compensation, middle-axle
speeds `|angular * (R ∓ B) / radius| *` compensation, and the
`steering_angle_correction` scalar multiplies the final (post-sign)
steering angles. -/
theorem C5_curved_case_formulas (w : WheelParams) (l a : ℝ) (ha : a ≠ 0) (hl : l ≠ 0) :
    solverCore w l a = some (solveCurved w l a) ∧
    angle_left w l a =
      Real.pi / 2 - Real.arctan ((2 * |l / a| - wheel_base w) / wheel_separation w) ∧
    angle_right w l a =
      Real.pi / 2 - Real.arctan ((2 * |l / a| + wheel_base w) / wheel_separation w) ∧
    velocity_left w l a =
      |a * (wheel_separation w / (2 * Real.sin (angle_left w l a))) / left_wheel_radius w| *
        w.angular_velocity_compensation ∧
    velocity_right w l a =
      |a * (wheel_separation w / (2 * Real.sin (angle_right w l a))) / right_wheel_radius w| *
        w.angular_velocity_compensation ∧
    velocity_mid_left w l a =
      |a * (|l / a| - wheel_base w) / left_wheel_radius w| * w.angular_velocity_compensation ∧
    velocity_mid_right w l a =
      |a * (|l / a| + wheel_base w) / right_wheel_radius w| * w.angular_velocity_compensation ∧
    (solveCurved w l a).steering_angle_left =
      d (quadrant l a) 0 *
        (if quadrant l a = 0 ∨ quadrant l a = 3 then angle_left w l a else angle_right w l a) *
        w.steering_angle_correction ∧
    (solveCurved w l a).steering_angle_right =
      d (quadrant l a) 1 *
        (if quadrant l a = 0 ∨ quadrant l a = 3 then angle_right w l a else angle_left w l a) *
        w.steering_angle_correction := by
  refine ⟨?_, rfl, rfl, ?_, ?_, rfl, rfl, rfl, rfl⟩
  · unfold solverCore
    rw [if_neg ha, if_pos hl]
  · simp [velocity_left, left_axis, abs_mul, abs_div, abs_abs]
  · simp [velocity_right, right_axis, abs_mul, abs_div, abs_abs]

/-- C5 witness: the curved-case branch and its steering formula at the
unit geometry and the command `(1, 1)`. -/
theorem C5_witness :
    (1 : ℝ) ≠ 0 ∧ solverCore w0 1 1 = some (solveCurved w0 1 1) :=
  ⟨by norm_num, (C5_curved_case_formulas w0 1 1 (by norm_num) (by norm_num)).1⟩

/-! ### C4 -/

/-- C4: the claim says for `angular = 0` every wheel speed output equals
the nonnegative quantity `|linear| / effective radius`.  At
`linear = -1` the quadrant is 3 and the direction matrix row
`{1, 1, -1, -1}` (line 419) negates the wheel speeds, so the left wheel
output is `-1`, not `|(-1)| / (1 * 1) = 1`. -/
theorem C4_counterexample :
    (solverCore w0 (-1) 0).map Setpoints.wheel_velocity_left = some (-1) ∧
    (-1 : ℝ) ≠ |(-1 : ℝ)| / (1 * 1) := by
  constructor
  · unfold solverCore
    rw [if_pos rfl]
    norm_num [applyDirection, quadrant, d, left_wheel_radius, w0]
  · norm_num

/-- C4 (amended): for `angular = 0` all four steering outputs are zero and
each wheel speed output (front/rear and middle alike) equals
`|linear| / (side radius multiplier * wheel radius)` *with the quadrant
sign applied*: positive for `linear > 0` and negated otherwise
(quadrant 3 covers both reverse and zero linear commands). -/
theorem C4_straight_line (w : WheelParams) (l a : ℝ) (ha : a = 0) :
    (solverCore w l a).map Setpoints.steering_angle_left = some 0 ∧
    (solverCore w l a).map Setpoints.steering_angle_right = some 0 ∧
    (solverCore w l a).map (fun s => (writeHandles s).front_left_steering) = some 0 ∧
    (solverCore w l a).map (fun s => (writeHandles s).front_right_steering) = some 0 ∧
    (solverCore w l a).map (fun s => (writeHandles s).rear_left_steering) = some 0 ∧
    (solverCore w l a).map (fun s => (writeHandles s).rear_right_steering) = some 0 ∧
    (solverCore w l a).map Setpoints.wheel_velocity_left =
      some ((if 0 < l then 1 else -1) * |l / left_wheel_radius w|) ∧
    (solverCore w l a).map Setpoints.wheel_velocity_right =
      some ((if 0 < l then 1 else -1) * |l / right_wheel_radius w|) ∧
    (solverCore w l a).map Setpoints.wheel_velocity_mid_left =
      some ((if 0 < l then 1 else -1) * |l / left_wheel_radius w|) ∧
    (solverCore w l a).map Setpoints.wheel_velocity_mid_right =
      some ((if 0 < l then 1 else -1) * |l / right_wheel_radius w|) := by
  subst ha
  unfold solverCore
  rw [if_pos rfl]
  by_cases hl : 0 < l
  · simp [applyDirection, quadrant, hl, d, writeHandles]
  · simp [applyDirection, quadrant, hl, d, writeHandles]

/-- C4 witness: the amended statement at the unit geometry and the
forward command `(2, 0)`. -/
theorem C4_witness :
    (0 : ℝ) = 0 ∧ (solverCore w0 2 0).map Setpoints.steering_angle_left = some 0 :=
  ⟨rfl, (C4_straight_line w0 2 0 rfl).1⟩

/-! ### C6 -/

lemma turning_radius_neg_neg (l a : ℝ) : turning_radius (-l) (-a) = turning_radius l a := by
  unfold turning_radius
  rw [neg_div_neg_eq]

lemma angle_left_neg_neg (w : WheelParams) (l a : ℝ) :
    angle_left w (-l) (-a) = angle_left w l a := by
  unfold angle_left
  rw [turning_radius_neg_neg]

lemma angle_right_neg_neg (w : WheelParams) (l a : ℝ) :
    angle_right w (-l) (-a) = angle_right w l a := by
  unfold angle_right
  rw [turning_radius_neg_neg]

lemma velocity_left_neg_neg (w : WheelParams) (l a : ℝ) :
    velocity_left w (-l) (-a) = velocity_left w l a := by
  unfold velocity_left left_axis
  rw [angle_left_neg_neg]
  rw [show ∀ x : ℝ, -a * x / left_wheel_radius w = -(a * x / left_wheel_radius w) from
    fun x => by ring]
  rw [abs_neg]

lemma velocity_right_neg_neg (w : WheelParams) (l a : ℝ) :
    velocity_right w (-l) (-a) = velocity_right w l a := by
  unfold velocity_right right_axis
  rw [angle_right_neg_neg]
  rw [show ∀ x : ℝ, -a * x / right_wheel_radius w = -(a * x / right_wheel_radius w) from
    fun x => by ring]
  rw [abs_neg]

lemma velocity_mid_left_neg_neg (w : WheelParams) (l a : ℝ) :
    velocity_mid_left w (-l) (-a) = velocity_mid_left w l a := by
  unfold velocity_mid_left
  rw [turning_radius_neg_neg]
  rw [show ∀ x : ℝ, -a * x / left_wheel_radius w = -(a * x / left_wheel_radius w) from
    fun x => by ring]
  rw [abs_neg]

lemma velocity_mid_right_neg_neg (w : WheelParams) (l a : ℝ) :
    velocity_mid_right w (-l) (-a) = velocity_mid_right w l a := by
  unfold velocity_mid_right
  rw [turning_radius_neg_neg]
  rw [show ∀ x : ℝ, -a * x / right_wheel_radius w = -(a * x / right_wheel_radius w) from
    fun x => by ring]
  rw [abs_neg]

lemma quadrant_pp {l a : ℝ} (hl : 0 < l) (ha : 0 < a) : quadrant l a = 0 := by
  unfold quadrant
  rw [if_pos hl, if_pos ha.le]

lemma quadrant_pn {l a : ℝ} (hl : 0 < l) (ha : a < 0) : quadrant l a = 1 := by
  unfold quadrant
  rw [if_pos hl, if_neg (not_le.mpr ha)]

lemma quadrant_np {l a : ℝ} (hl : l < 0) (ha : 0 < a) : quadrant l a = 2 := by
  unfold quadrant
  rw [if_neg (by linarith), if_pos ha]

lemma quadrant_nn {l a : ℝ} (hl : l < 0) (ha : a < 0) : quadrant l a = 3 := by
  unfold quadrant
  rw [if_neg (by linarith), if_neg (by linarith)]

/-- The quadrant symmetry at the level of the six computed setpoints:
negating both commands leaves both steering setpoints unchanged and
negates all four wheel-speed setpoints. -/
lemma solveCurved_neg_neg (w : WheelParams) (l a : ℝ) (hl : l ≠ 0) (ha : a ≠ 0) :
    (solveCurved w (-l) (-a)).steering_angle_left = (solveCurved w l a).steering_angle_left ∧
    (solveCurved w (-l) (-a)).steering_angle_right = (solveCurved w l a).steering_angle_right ∧
    (solveCurved w (-l) (-a)).wheel_velocity_left = -(solveCurved w l a).wheel_velocity_left ∧
    (solveCurved w (-l) (-a)).wheel_velocity_right = -(solveCurved w l a).wheel_velocity_right ∧
    (solveCurved w (-l) (-a)).wheel_velocity_mid_left =
      -(solveCurved w l a).wheel_velocity_mid_left ∧
    (solveCurved w (-l) (-a)).wheel_velocity_mid_right =
      -(solveCurved w l a).wheel_velocity_mid_right := by
  rcases hl.lt_or_lt with hl | hl <;> rcases ha.lt_or_lt with ha | ha
  · -- l < 0, a < 0 : quadrant 3 versus quadrant 0
    have q1 : quadrant l a = 3 := quadrant_nn hl ha
    have q2 : quadrant (-l) (-a) = 0 := quadrant_pp (by linarith) (by linarith)
    refine ⟨?_, ?_, ?_, ?_, ?_, ?_⟩ <;>
      simp [solveCurved, applyDirection, q1, q2, d, angle_left_neg_neg, angle_right_neg_neg,
        velocity_left_neg_neg, velocity_right_neg_neg, velocity_mid_left_neg_neg,
        velocity_mid_right_neg_neg]
  · -- l < 0, 0 < a : quadrant 2 versus quadrant 1
    have q1 : quadrant l a = 2 := quadrant_np hl ha
    have q2 : quadrant (-l) (-a) = 1 := quadrant_pn (by linarith) (by linarith)
    refine ⟨?_, ?_, ?_, ?_, ?_, ?_⟩ <;>
      simp [solveCurved, applyDirection, q1, q2, d, angle_left_neg_neg, angle_right_neg_neg,
        velocity_left_neg_neg, velocity_right_neg_neg, velocity_mid_left_neg_neg,
        velocity_mid_right_neg_neg]
  · -- 0 < l, a < 0 : quadrant 1 versus quadrant 2
    have q1 : quadrant l a = 1 := quadrant_pn hl ha
    have q2 : quadrant (-l) (-a) = 2 := quadrant_np (by linarith) (by linarith)
    refine ⟨?_, ?_, ?_, ?_, ?_, ?_⟩ <;>
      simp [solveCurved, applyDirection, q1, q2, d, angle_left_neg_neg, angle_right_neg_neg,
        velocity_left_neg_neg, velocity_right_neg_neg, velocity_mid_left_neg_neg,
        velocity_mid_right_neg_neg]
  · -- 0 < l, 0 < a : quadrant 0 versus quadrant 3
    have q1 : quadrant l a = 0 := quadrant_pp hl ha
    have q2 : quadrant (-l) (-a) = 3 := quadrant_nn (by linarith) (by linarith)
    refine ⟨?_, ?_, ?_, ?_, ?_, ?_⟩ <;>
      simp [solveCurved, applyDirection, q1, q2, d, angle_left_neg_neg, angle_right_neg_neg,
        velocity_left_neg_neg, velocity_right_neg_neg, velocity_mid_left_neg_neg,
        velocity_mid_right_neg_neg]

lemma rad_per_s_to_rpm_neg (v : ℝ) : rad_per_s_to_rpm (-v) = -rad_per_s_to_rpm v := by
  unfold rad_per_s_to_rpm
  ring

/-- C6: solving for `(-linear, -angular)` instead of `(linear, angular)`
(both nonzero) leaves all four written steering angles identical and
negates all written wheel speeds (the two per-side front/rear values and
the two middle values), exactly as the direction matrix of lines 415-434
prescribes: the near/far selection `q == 0 || q == 3` coincides on the
quadrant pairs (0,3) and (1,2). -/
theorem C6_quadrant_symmetry (w : WheelParams) (l a : ℝ) (hl : l ≠ 0) (ha : a ≠ 0) :
    (writeHandles (solveCurved w (-l) (-a))).front_left_steering =
      (writeHandles (solveCurved w l a)).front_left_steering ∧
    (writeHandles (solveCurved w (-l) (-a))).front_right_steering =
      (writeHandles (solveCurved w l a)).front_right_steering ∧
    (writeHandles (solveCurved w (-l) (-a))).rear_left_steering =
      (writeHandles (solveCurved w l a)).rear_left_steering ∧
    (writeHandles (solveCurved w (-l) (-a))).rear_right_steering =
      (writeHandles (solveCurved w l a)).rear_right_steering ∧
    (writeHandles (solveCurved w (-l) (-a))).left_wheel_rpm =
      -(writeHandles (solveCurved w l a)).left_wheel_rpm ∧
    (writeHandles (solveCurved w (-l) (-a))).right_wheel_rpm =
      -(writeHandles (solveCurved w l a)).right_wheel_rpm ∧
    (writeHandles (solveCurved w (-l) (-a))).mid_left_rpm =
      -(writeHandles (solveCurved w l a)).mid_left_rpm ∧
    (writeHandles (solveCurved w (-l) (-a))).mid_right_rpm =
      -(writeHandles (solveCurved w l a)).mid_right_rpm := by
  obtain ⟨h1, h2, h3, h4, h5, h6⟩ := solveCurved_neg_neg w l a hl ha
  unfold writeHandles
  exact ⟨h1, by rw [h2], by rw [h1], h2,
    by rw [h3, rad_per_s_to_rpm_neg], by rw [h4, rad_per_s_to_rpm_neg],
    by rw [h5, rad_per_s_to_rpm_neg], by rw [h6, rad_per_s_to_rpm_neg]⟩

/-- C6 witness: the symmetry applied at the unit geometry to the
representative pair `(1, 1/2)` versus `(-1, -1/2)`. -/
theorem C6_witness :
    (1 : ℝ) ≠ 0 ∧
    (writeHandles (solveCurved w0 (-1) (-(1 / 2)))).front_left_steering =
      (writeHandles (solveCurved w0 1 (1 / 2))).front_left_steering :=
  ⟨by norm_num, (C6_quadrant_symmetry w0 1 (1 / 2) (by norm_num) (by norm_num)).1⟩

/-! ### Tick-level claims -/

/-- Inversion principle for a successful tick: the stale override was
computed, the early undefined-radius check passed, the odometry stage
produced a state, the solver (fed with the limited command) produced a
setpoint, and the tick output is assembled from exactly these pieces. -/
lemma update_inversion {σ : Type} {open_loop : Bool} {uol : σ → ℝ → ℝ → σ}
    {uv : σ → FpVal → FpVal → σ} {w : WheelParams} {ll la : SpeedLimiter}
    {stored : TwistCmd} {t tmo : ℚ} {odom : σ} {fb : List FpSample}
    {l1 a1 l2 a2 dt : ℝ} {out : TickOutput σ}
    (h : update open_loop uol uv w ll la stored t tmo odom fb l1 a1 l2 a2 dt = some out) :
    ∃ odom2 sp,
      (if open_loop then
          some (uol odom (applyStaleOverride stored t tmo).linear
            (applyStaleOverride stored t tmo).angular)
        else (closedLoopReduce fb).map fun p => uv odom p.1 p.2) = some odom2 ∧
      solverCore w (ll.limit (applyStaleOverride stored t tmo).linear l1 l2 dt)
          (la.limit (applyStaleOverride stored t tmo).angular a1 a2 dt) = some sp ∧
      out = ⟨applyStaleOverride stored t tmo, odom2,
        ll.limit (applyStaleOverride stored t tmo).linear l1 l2 dt,
        la.limit (applyStaleOverride stored t tmo).angular a1 a2 dt, writeHandles sp⟩ := by
  simp only [update] at h
  split at h
  · exact absurd h (by simp)
  · rw [Option.bind_eq_some] at h
    obtain ⟨odom2, h1, h2⟩ := h
    rw [Option.map_eq_some'] at h2
    obtain ⟨sp, hsp, hout⟩ := h2
    exact ⟨odom2, sp, h1, hsp, hout.symm⟩

/-! ### C2 -/

/-- C2: if the post-staleness command has nonzero angular and zero linear
velocity, the tick returns the error at line 237 ("Turning radius is too
short!"), which precedes every handle write (lines 447-460) — so no
actuator setpoint is emitted, in either odometry mode. -/
theorem C2_undefined_radius_errors {σ : Type}
    (open_loop : Bool) (uol : σ → ℝ → ℝ → σ) (uv : σ → FpVal → FpVal → σ)
    (w : WheelParams) (ll la : SpeedLimiter) (stored : TwistCmd)
    (t tmo : ℚ) (odom : σ) (fb : List FpSample) (l1 a1 l2 a2 dt : ℝ)
    (hang : (applyStaleOverride stored t tmo).angular ≠ 0)
    (hlin : (applyStaleOverride stored t tmo).linear = 0) :
    update open_loop uol uv w ll la stored t tmo odom fb l1 a1 l2 a2 dt = none := by
  simp only [update]
  rw [if_pos ⟨hang, hlin⟩]

/-- C2 witness: a fresh command with `linear = 0`, `angular = 1` makes the
tick error out with no setpoint. -/
theorem C2_witness :
    (applyStaleOverride ⟨0, 1, 0⟩ 0 (1 / 2)).angular ≠ 0 ∧
    update false (fun (_ : Unit) _ _ => ()) (fun _ _ _ => ()) w0 lim0 lim0
      ⟨0, 1, 0⟩ 0 (1 / 2) () [] 0 0 0 0 1 = none := by
  have h1 : applyStaleOverride ⟨0, 1, 0⟩ 0 (1 / 2) = (⟨0, 1, 0⟩ : TwistCmd) := by
    unfold applyStaleOverride
    rw [if_neg (by norm_num)]
  constructor
  · rw [h1]
    norm_num
  · exact C2_undefined_radius_errors false _ _ w0 lim0 lim0 ⟨0, 1, 0⟩ 0 (1 / 2) () [] 0 0 0 0 1
      (by rw [h1]; norm_num) (by rw [h1])

/-! ### C1 -/

/-- C1: the claim says the zero override for a stale command is transient
and the stored command is not overwritten.  In the source the override
is written through the shared pointer into the stored message itself
(lines 213-217, "override the stored command"): after a tick that saw a
stale command whose linear velocity was `2`, the stored slot holds `0`. -/
theorem C1_counterexample :
    ((update true (fun (_ : Unit) _ _ => ()) (fun _ _ _ => ()) w0 lim0 lim0
        ⟨2, 0, 0⟩ 1 (1 / 2) () [] 0 0 0 0 1).map fun o => o.new_stored.linear) = some 0 ∧
    (TwistCmd.mk 2 0 0).linear = 2 ∧ (2 : ℝ) ≠ 0 := by
  refine ⟨?_, rfl, by norm_num⟩
  norm_num [update, applyStaleOverride, SpeedLimiter.limit, lim0, solverCore,
    applyDirection, quadrant, d, writeHandles, w0, left_wheel_radius, right_wheel_radius]

/-- C1 (amended): a command older than the timeout is indeed treated as
zero for the whole tick, but the override is persistent, not transient:
the stored message itself is zeroed (keeping its stamp), and any
successful tick leaves the zeroed command in the stored slot. -/
theorem C1_stale_command_zeroed_persistently (stored : TwistCmd) (t tmo : ℚ)
    (h : t - stored.stamp > tmo) :
    applyStaleOverride stored t tmo = ⟨0, 0, stored.stamp⟩ ∧
    (∀ {σ : Type} (open_loop : Bool) (uol : σ → ℝ → ℝ → σ) (uv : σ → FpVal → FpVal → σ)
      (w : WheelParams) (ll la : SpeedLimiter) (odom : σ) (fb : List FpSample)
      (l1 a1 l2 a2 dt : ℝ) (out : TickOutput σ),
      update open_loop uol uv w ll la stored t tmo odom fb l1 a1 l2 a2 dt = some out →
        out.new_stored.linear = 0 ∧ out.new_stored.angular = 0) := by
  have hov : applyStaleOverride stored t tmo = ⟨0, 0, stored.stamp⟩ := by
    unfold applyStaleOverride
    rw [if_pos h]
  refine ⟨hov, ?_⟩
  intro σ open_loop uol uv w ll la odom fb l1 a1 l2 a2 dt out hupd
  obtain ⟨odom2, sp, _, _, hout⟩ := update_inversion hupd
  rw [hout, hov]
  exact ⟨rfl, rfl⟩

/-- C1 witness: a command stamped at `0` observed at time `1` with a
`0.5 s` timeout is overridden to zero in the stored slot. -/
theorem C1_witness :
    ((1 : ℚ) - (TwistCmd.mk 2 0 0).stamp > 1 / 2) ∧
    applyStaleOverride ⟨2, 0, 0⟩ 1 (1 / 2) = ⟨0, 0, (TwistCmd.mk 2 0 0).stamp⟩ :=
  ⟨by norm_num, (C1_stale_command_zeroed_persistently ⟨2, 0, 0⟩ 1 (1 / 2) (by norm_num)).1⟩

/-! ### C3 -/

/-- C3: the claim says the SpeedLimiter runs before the OdometryEstimator,
so open-loop odometry integrates the limited command.  In the source the
open-loop odometry update (line 242) precedes the limiter calls (lines
363-366): with a velocity limiter clamping to `[-1, 1]` and a raw
command of `5`, the odometry stage receives `5` while the solver
receives the limited `1`. -/
theorem C3_counterexample :
    ((update true (fun (_ : ℝ × ℝ) lin ang => (lin, ang)) (fun s _ _ => s) w0 limClamp lim0
        ⟨5, 0, 0⟩ 0 (1 / 2) ((0 : ℝ), (0 : ℝ)) [] 0 0 0 0 1).map
      fun o => (o.odom, o.limited_linear)) = some ((5, 0), 1) ∧
    (5 : ℝ) ≠ 1 := by
  refine ⟨?_, by norm_num⟩
  norm_num [update, applyStaleOverride, SpeedLimiter.limit, limClamp, lim0, solverCore,
    applyDirection, quadrant, d, writeHandles, w0, left_wheel_radius, right_wheel_radius]

/-- C3 (amended): on every successful open-loop tick the odometry stage
consumes the raw post-staleness command — the limiter is applied only
afterwards, and only the kinematics solver consumes the limited
command. -/
theorem C3_odometry_before_limiter {σ : Type}
    (uol : σ → ℝ → ℝ → σ) (uv : σ → FpVal → FpVal → σ)
    (w : WheelParams) (ll la : SpeedLimiter) (stored : TwistCmd) (t tmo : ℚ)
    (odom : σ) (fb : List FpSample) (l1 a1 l2 a2 dt : ℝ) (out : TickOutput σ)
    (h : update true uol uv w ll la stored t tmo odom fb l1 a1 l2 a2 dt = some out) :
    out.odom = uol odom (applyStaleOverride stored t tmo).linear
      (applyStaleOverride stored t tmo).angular ∧
    out.limited_linear = ll.limit (applyStaleOverride stored t tmo).linear l1 l2 dt ∧
    out.limited_angular = la.limit (applyStaleOverride stored t tmo).angular a1 a2 dt ∧
    (solverCore w out.limited_linear out.limited_angular).map writeHandles = some out.writes := by
  obtain ⟨odom2, sp, h1, h2, hout⟩ := update_inversion h
  simp only [if_true] at h1
  rw [Option.some_inj] at h1
  rw [hout]
  refine ⟨h1.symm ▸ rfl, rfl, rfl, ?_⟩
  simp only []
  rw [h2]
  rfl

/-- C3 witness: the amended statement on a concrete successful open-loop
tick with a fresh `(1, 0)` command and all limits disabled. -/
theorem C3_witness :
    update true (fun (_ : ℝ × ℝ) lin ang => (lin, ang)) (fun s _ _ => s) w0 lim0 lim0
        ⟨1, 0, 0⟩ 0 (1 / 2) ((0 : ℝ), (0 : ℝ)) [] 0 0 0 0 1 =
      some ⟨⟨1, 0, 0⟩, ((1 : ℝ), (0 : ℝ)), 1, 0, writeHandles ⟨0, 0, 1, 1, 1, 1⟩⟩ ∧
    (TickOutput.odom ⟨⟨1, 0, 0⟩, ((1 : ℝ), (0 : ℝ)), 1, 0, writeHandles ⟨0, 0, 1, 1, 1, 1⟩⟩ :
        ℝ × ℝ) =
      (fun (_ : ℝ × ℝ) lin ang => (lin, ang)) ((0 : ℝ), (0 : ℝ))
        (applyStaleOverride ⟨1, 0, 0⟩ 0 (1 / 2)).linear
        (applyStaleOverride ⟨1, 0, 0⟩ 0 (1 / 2)).angular := by
  have hrun : update true (fun (_ : ℝ × ℝ) lin ang => (lin, ang)) (fun s _ _ => s) w0 lim0 lim0
      ⟨1, 0, 0⟩ 0 (1 / 2) ((0 : ℝ), (0 : ℝ)) [] 0 0 0 0 1 =
      some ⟨⟨1, 0, 0⟩, ((1 : ℝ), (0 : ℝ)), 1, 0, writeHandles ⟨0, 0, 1, 1, 1, 1⟩⟩ := by
    norm_num [update, applyStaleOverride, SpeedLimiter.limit, lim0, solverCore,
      applyDirection, quadrant, d, writeHandles, w0, left_wheel_radius, right_wheel_radius]
  exact ⟨hrun, (C3_odometry_before_limiter _ _ w0 lim0 lim0 ⟨1, 0, 0⟩ 0 (1 / 2)
    ((0 : ℝ), (0 : ℝ)) [] 0 0 0 0 1 _ hrun).1⟩

/-! ### C7 -/

lemma scaleRpm_isnan (v : FpVal) : v.scaleRpm.isnan = v.isnan := by
  cases v <;> rfl

/-- Any NaN among the sampled values makes the accumulation loop error
out, whatever the running sums are. -/
lemma feedbackSumsAux_nan (fb : List FpSample)
    (h : (fb.any fun s => s.left_velocity.isnan || s.right_velocity.isnan ||
        s.left_angle.isnan || s.right_angle.isnan) = true) :
    ∀ acc, feedbackSumsAux fb acc = none := by
  induction fb with
  | nil => simp at h
  | cons s rest ih =>
    intro acc
    obtain ⟨a1, a2, a3, a4⟩ := acc
    rw [List.any_cons] at h
    unfold feedbackSumsAux
    by_cases h1 : (s.left_velocity.scaleRpm.isnan || s.right_velocity.scaleRpm.isnan) = true
    · rw [if_pos h1]
    · rw [if_neg h1]
      by_cases h2 : (s.left_angle.isnan || s.right_angle.isnan) = true
      · rw [if_pos h2]
      · rw [if_neg h2]
        apply ih
        simp only [Bool.or_eq_true, scaleRpm_isnan] at h h1 h2
        tauto

lemma closedLoopReduce_nan (fb : List FpSample)
    (h : (fb.any fun s => s.left_velocity.isnan || s.right_velocity.isnan ||
        s.left_angle.isnan || s.right_angle.isnan) = true) :
    closedLoopReduce fb = none := by
  simp only [closedLoopReduce]
  rw [feedbackSumsAux_nan fb h]

/-- C7: the claim says any NaN *or infinite* feedback scalar is detected.
The source only checks `std::isnan` (lines 281-293): with both wheel
velocities reading `+inf`, the reduction succeeds, passes `+inf` as the
velocity encoder into the odometry update, and the tick completes and
updates the odometry state instead of signalling an error. -/
theorem C7_counterexample :
    closedLoopReduce [⟨FpVal.posInf, FpVal.posInf, FpVal.fin 0, FpVal.fin 0⟩] =
      some (FpVal.fin 0, FpVal.posInf) ∧
    ((update false (fun (s : ℝ) _ _ => s) (fun s _ _ => s + 1) w0 lim0 lim0
        ⟨1, 0, 0⟩ 0 (1 / 2) (0 : ℝ)
        [⟨FpVal.posInf, FpVal.posInf, FpVal.fin 0, FpVal.fin 0⟩] 0 0 0 0 1).map
      fun o => o.odom) = some 1 ∧
    (1 : ℝ) ≠ 0 := by
  have hred : closedLoopReduce [⟨FpVal.posInf, FpVal.posInf, FpVal.fin 0, FpVal.fin 0⟩] =
      some (FpVal.fin 0, FpVal.posInf) := by
    norm_num [closedLoopReduce, feedbackSumsAux, quadrantF, FpVal.scaleRpm, FpVal.isnan,
      FpVal.fabs, FpVal.fadd, FpVal.fdivN, FpVal.fmin, FpVal.fmax, FpVal.flt, FpVal.gt0,
      FpVal.ge0, FpVal.fneg]
  refine ⟨hred, ?_, by norm_num⟩
  norm_num [update, applyStaleOverride, SpeedLimiter.limit, lim0, solverCore,
    applyDirection, quadrant, d, writeHandles, w0, left_wheel_radius, right_wheel_radius, hred]

/-- C7 (amended): in closed-loop mode any NaN among the sampled wheel
velocities or steering angles makes the tick return the error of lines
285/292 — before the odometry update at line 315 and before any handle
write — so the pose is left untouched; infinite values, however, are
not detected. -/
theorem C7_nan_feedback_errors {σ : Type}
    (uol : σ → ℝ → ℝ → σ) (uv : σ → FpVal → FpVal → σ)
    (w : WheelParams) (ll la : SpeedLimiter) (stored : TwistCmd) (t tmo : ℚ)
    (odom : σ) (fb : List FpSample) (l1 a1 l2 a2 dt : ℝ)
    (h : (fb.any fun s => s.left_velocity.isnan || s.right_velocity.isnan ||
        s.left_angle.isnan || s.right_angle.isnan) = true) :
    update false uol uv w ll la stored t tmo odom fb l1 a1 l2 a2 dt = none := by
  simp only [update]
  split
  · rfl
  · simp [closedLoopReduce_nan fb h]

/-- C7 witness: one NaN left wheel velocity makes the concrete tick
return the error and leave the (here real-valued) odometry state
unwritten. -/
theorem C7_witness :
    ((([⟨FpVal.nan, FpVal.fin 1, FpVal.fin 0, FpVal.fin 0⟩] : List FpSample).any fun s =>
        s.left_velocity.isnan || s.right_velocity.isnan ||
        s.left_angle.isnan || s.right_angle.isnan) = true) ∧
    update false (fun (s : ℝ) _ _ => s) (fun s _ _ => s + 1) w0 lim0 lim0
      ⟨1, 0, 0⟩ 0 (1 / 2) (0 : ℝ) [⟨FpVal.nan, FpVal.fin 1, FpVal.fin 0, FpVal.fin 0⟩]
      0 0 0 0 1 = none :=
  ⟨rfl, C7_nan_feedback_errors _ _ w0 lim0 lim0 ⟨1, 0, 0⟩ 0 (1 / 2) 0 _ 0 0 0 0 1 rfl⟩

/-! ### C10 -/

lemma fmin_fin (x y : ℝ) : FpVal.fmin (FpVal.fin x) (FpVal.fin y) = FpVal.fin (min x y) := by
  unfold FpVal.fmin FpVal.flt
  by_cases h : y < x
  · simp [h, min_eq_right h.le]
  · simp [h, min_eq_left (not_lt.mp h)]

lemma fmax_fin (x y : ℝ) : FpVal.fmax (FpVal.fin x) (FpVal.fin y) = FpVal.fin (max x y) := by
  unfold FpVal.fmax FpVal.flt
  by_cases h : x < y
  · simp [h, max_eq_right h.le]
  · simp [h, max_eq_left (not_lt.mp h)]

lemma quadrantF_fin (x y : ℝ) :
    quadrantF (FpVal.fin x) (FpVal.fin y) = quadrant x y := by
  unfold quadrantF quadrant FpVal.gt0 FpVal.ge0
  by_cases h1 : 0 < x <;> by_cases h2 : 0 ≤ y <;> by_cases h3 : 0 < y <;> simp [h1, h2, h3]

/-- On an all-finite feedback list the accumulation loop succeeds and
computes the four sums of absolute (converted) values. -/
lemma feedbackSumsAux_fin (l : List RealSample) :
    ∀ A B C D : ℝ,
      feedbackSumsAux (l.map finSample) (FpVal.fin A, FpVal.fin B, FpVal.fin C, FpVal.fin D) =
        some (FpVal.fin (A + ((l.map fun x => |rpm_to_rad_per_s x.left_velocity|).sum)),
              FpVal.fin (B + ((l.map fun x => |rpm_to_rad_per_s x.right_velocity|).sum)),
              FpVal.fin (C + ((l.map fun x => |x.left_angle|).sum)),
              FpVal.fin (D + ((l.map fun x => |x.right_angle|).sum))) := by
  induction l with
  | nil =>
    intro A B C D
    simp [feedbackSumsAux]
  | cons s rest ih =>
    intro A B C D
    simp only [List.map_cons]
    unfold feedbackSumsAux
    simp only [finSample, FpVal.scaleRpm, FpVal.isnan, FpVal.fabs, FpVal.fadd,
      Bool.or_self, Bool.false_eq_true, if_false]
    rw [ih]
    simp only [List.sum_cons]
    simp [add_assoc]

/-- C10: for a tick with valid (all finite) feedback, the representative
pair handed to the odometry update is exactly the claimed reduction:
the angle encoder is the larger of the two per-side means of absolute
steering angles, signed positively iff the quadrant of the first left
wheel's (converted) velocity and steering angle is 0 or 2, and the
velocity encoder is the smaller of the two per-side means of absolute
(converted) wheel velocities, signed positively iff that quadrant is 0
or 1. -/
theorem C10_encoder_reduction (s : RealSample) (rest : List RealSample) :
    closedLoopReduce ((s :: rest).map finSample) =
      some
        (FpVal.fin
          ((if quadrant (rpm_to_rad_per_s s.left_velocity) s.left_angle = 0 ∨
               quadrant (rpm_to_rad_per_s s.left_velocity) s.left_angle = 2 then 1 else -1) *
            max ((((s :: rest).map fun x => |x.left_angle|).sum) / ((s :: rest).length : ℝ))
                ((((s :: rest).map fun x => |x.right_angle|).sum) / ((s :: rest).length : ℝ))),
         FpVal.fin
          ((if quadrant (rpm_to_rad_per_s s.left_velocity) s.left_angle = 0 ∨
               quadrant (rpm_to_rad_per_s s.left_velocity) s.left_angle = 1 then 1 else -1) *
            min ((((s :: rest).map fun x => |rpm_to_rad_per_s x.left_velocity|).sum) /
                  ((s :: rest).length : ℝ))
                ((((s :: rest).map fun x => |rpm_to_rad_per_s x.right_velocity|).sum) /
                  ((s :: rest).length : ℝ)))) := by
  have hmean : ∀ (a : ℝ) (f : RealSample → ℝ), (∀ x, 0 ≤ f x) → 0 ≤ a →
      (0 : ℝ) ≤ (a :: rest.map f).sum / ((rest.length + 1 : ℕ) : ℝ) := by
    intro a f hf ha
    apply div_nonneg _ (Nat.cast_nonneg _)
    apply List.sum_nonneg
    intro x hx
    rcases List.mem_cons.mp hx with rfl | hx
    · exact ha
    · obtain ⟨y, _, rfl⟩ := List.mem_map.mp hx
      exact hf y
  unfold closedLoopReduce
  rw [feedbackSumsAux_fin (s :: rest) 0 0 0 0]
  simp only [List.map_cons, List.length_map, List.length_cons, finSample, FpVal.scaleRpm,
    FpVal.fdivN, FpVal.fabs, quadrantF_fin, zero_add]
  rw [fmin_fin, fmax_fin]
  rw [abs_of_nonneg (hmean |rpm_to_rad_per_s s.left_velocity|
      (fun x => |rpm_to_rad_per_s x.left_velocity|) (fun x => abs_nonneg _) (abs_nonneg _)),
    abs_of_nonneg (hmean |rpm_to_rad_per_s s.right_velocity|
      (fun x => |rpm_to_rad_per_s x.right_velocity|) (fun x => abs_nonneg _) (abs_nonneg _)),
    abs_of_nonneg (hmean |s.left_angle|
      (fun x => |x.left_angle|) (fun x => abs_nonneg _) (abs_nonneg _)),
    abs_of_nonneg (hmean |s.right_angle|
      (fun x => |x.right_angle|) (fun x => abs_nonneg _) (abs_nonneg _))]
  by_cases hq : quadrant (rpm_to_rad_per_s s.left_velocity) s.left_angle = 0 ∨
      quadrant (rpm_to_rad_per_s s.left_velocity) s.left_angle = 1 <;>
    by_cases hq2 : quadrant (rpm_to_rad_per_s s.left_velocity) s.left_angle = 0 ∨
      quadrant (rpm_to_rad_per_s s.left_velocity) s.left_angle = 2 <;>
    simp [hq, hq2, FpVal.fneg]

end Ack6WD
